import Mathlib

/-!
Verification of the URL discovery and deduplication core of the
Generic-Web-Scraping repository, against a shallow embedding of the
Python sources (`src/storage.py`, `src/scraper.py`,
`src/cybersecguru_scraper.py`).

The embedding is pure: stateful methods become explicit state passing,
HTTP fetching becomes an environment function from URL strings to fetch
outcomes, and fallible standard-library calls (JSON loading,
`datetime.fromisoformat`) become `Option`/`Except` values.
-/

namespace Scraping

/-! ## Python string helpers

Character-level helpers mirroring the Python string operations used by
the sources: `str.strip` (with Python's whitespace set), trailing-slash
removal, `str.replace`, and the specific `re.sub` rewrites appearing in
`BaseScraper._is_within_yesterday_to_now`. -/

/-- Python whitespace characters recognised by `str.strip` and the
regex class `\s` (ASCII part): space, tab, newline, carriage return,
vertical tab, form feed. -/
def isPyWs (c : Char) : Bool :=
  c = ' ' || c = '\t' || c = '\n' || c = '\r' || c = Char.ofNat 11 || c = Char.ofNat 12

/-- `str.strip()` on the character list: drop leading and trailing
whitespace. -/
def stripL (l : List Char) : List Char :=
  ((l.dropWhile isPyWs).reverse.dropWhile isPyWs).reverse

/-- `str.strip()` on strings. -/
def pyStrip (s : String) : String :=
  ⟨stripL s.data⟩

/-! ## URLStorage (`src/storage.py`)

`URLStorage` keeps `self.data["urls"] : List String`; `add_urls` is
embedded as a pure transition on that list, returning the value the
method returns, the updated stored list, and whether `_save` ran. -/

/-- The cleanup loop at the top of `URLStorage.add_urls` (lines 91-98):
skip falsy (empty) entries, strip surrounding whitespace, drop one
trailing `/`.  The source computes this list and never uses it. -/
def cleanedUrls (new_urls : List String) : List String :=
  (new_urls.filter (fun u => u ≠ "")).map (fun u =>
    let l := stripL u.data
    if l.getLast? = some '/' then ⟨l.dropLast⟩ else (⟨l⟩ : String))

/-- Result of one `add_urls` call: the returned list, the stored `urls`
list afterwards, and whether `_save` (a write) happened. -/
structure AddResult where
  returned : List String
  stored : List String
  wrote : Bool
  deriving Repr, DecidableEq

/-- `URLStorage.add_urls` (lines 81-110).  `seen` is
`set(self.data["urls"])`; `truly_new` filters the ORIGINAL `new_urls`
(not the cleaned list, which the source discards) by membership in
`seen`; if non-empty it is appended to the stored list and `_save`
runs, otherwise nothing is written. -/
def add_urls (stored : List String) (new_urls : List String) : AddResult :=
  let _cleaned := cleanedUrls new_urls
  let truly_new := new_urls.filter (fun url => !(stored.contains url))
  if truly_new.isEmpty then
    ⟨truly_new, stored, false⟩
  else
    ⟨truly_new, stored ++ truly_new, true⟩

/-! ## URLStorage._load (`src/storage.py` lines 26-56)

The read of the backing file is embedded as a sum of the four outcomes
the source distinguishes: file absent, file read and JSON-parsed to
data, file read but `json.load` raised `JSONDecodeError`, and any other
exception while opening/reading. -/

/-- Stored-file payload: the `urls` array plus the metadata fields. -/
structure StoreData where
  urls : List String
  created_at : String
  last_updated : String
  total_urls : Nat
  deriving Repr, DecidableEq

/-- Outcome of attempting to read and JSON-parse the backing file.
`ε` is the type of non-JSON exceptions (I/O, permission, ...). -/
inductive ReadOutcome (ε : Type) where
  | missing
  | parsed (d : StoreData)
  | jsonDecodeError
  | otherError (e : ε)
  deriving Repr, DecidableEq

/-- The fresh empty store `_load` builds (both for a missing file and
for a JSON-corrupt file), with `now` the serialized current time. -/
def freshStore (now : String) : StoreData :=
  ⟨[], now, now, 0⟩

/-- `URLStorage._load`: a missing file and a `JSONDecodeError` both
yield a fresh empty store; successful parse returns the data; any
other exception is re-raised (`raise` in the final `except` clause),
embedded as `Except.error`. -/
def load {ε : Type} (now : String) : ReadOutcome ε → Except ε StoreData
  | .missing => .ok (freshStore now)
  | .parsed d => .ok d
  | .jsonDecodeError => .ok (freshStore now)
  | .otherError e => .error e

/-! ## XML documents and the fetch environment

An XML element is a tag, optional text content, and a child list;
namespace prefixes are abstracted away (both the namespaced lookup and
its no-namespace fallback in the sources select elements by local tag
name, so the model uses the bare tag).  HTTP is an environment function
from URL strings to outcomes: a raised request exception, or a response
with a status code and a body, the body being `none` when
`ET.fromstring` would reject it and the parsed element otherwise. -/

inductive Xml where
  | elem (tag : String) (text : Option String) (children : List Xml)

def Xml.tagOf : Xml → String
  | .elem t _ _ => t

def Xml.textOf : Xml → Option String
  | .elem _ x _ => x

def Xml.childrenOf : Xml → List Xml
  | .elem _ _ cs => cs

mutual

/-- An element followed by all its descendants, in document (preorder)
order. -/
def allElems : Xml → List Xml
  | .elem t x cs => .elem t x cs :: allElemsList cs

/-- All elements of a forest with their descendants, preorder. -/
def allElemsList : List Xml → List Xml
  | [] => []
  | c :: cs => allElems c ++ allElemsList cs

end

/-- `root.findall(".//loc")`: the text of every `loc` descendant of the
root, in document order (the root itself is excluded by `.//`). -/
def locTexts (root : Xml) : List (Option String) :=
  (allElemsList root.childrenOf).filterMap (fun e =>
    if e.tagOf = "loc" then some e.textOf else none)

/-- The collection loop `for loc in loc_nodes: if loc.text:
urls.append(loc.text.strip())`: keep only truthy (present, non-empty)
texts, stripped. -/
def locStrippedTexts (root : Xml) : List String :=
  (locTexts root).filterMap (fun t? =>
    match t? with
    | some t => if t = "" then none else some (pyStrip t)
    | none => none)

/-- `list(dict.fromkeys(urls))`: deduplicate keeping first occurrences,
with an accumulator of keys seen so far. -/
def dedupGo (seen : List String) : List String → List String
  | [] => []
  | x :: xs => if seen.contains x then dedupGo seen xs else x :: dedupGo (x :: seen) xs

/-- Order-preserving first-occurrence deduplication. -/
def dedupFirst (l : List String) : List String :=
  dedupGo [] l

/-- Outcome of one `session.get(url)` call in the environment. -/
inductive GetOutcome where
  | exn
  | resp (status : Nat) (body : Option Xml)

/-- `BaseScraper.parse_xml_sitemap` (`src/scraper.py` lines 353-388,
the active definition): fetch with retry (a deterministic environment
makes every retry return the same outcome, so the retry loop resolves
to a single lookup; `raise_for_status` fails on status >= 400), parse
the body, extract EVERY `loc` descendant regardless of whether the
document is a urlset or a sitemap index, and deduplicate preserving
order.  Every failure path (request exception, non-2xx after retries,
XML parse error) is caught and yields `[]`. -/
def parse_xml_sitemap (env : String → GetOutcome) (sitemap_url : String) : List String :=
  match env sitemap_url with
  | .exn => []
  | .resp status body =>
    if status < 400 then
      match body with
      | none => []
      | some root => dedupFirst (locStrippedTexts root)
    else []

/-- `root.findall(".//sitemap/loc")`: for each `sitemap` descendant in
document order, the texts of its `loc` children. -/
def sitemapChildLocTexts (root : Xml) : List (Option String) :=
  (allElemsList root.childrenOf).flatMap (fun e =>
    if e.tagOf = "sitemap" then
      (e.childrenOf.filter (fun c => c.tagOf = "loc")).map Xml.textOf
    else [])

/-- `str.rstrip("/")`. -/
def pyRstripSlash (s : String) : String :=
  ⟨(s.data.reverse.dropWhile (fun c => c = '/')).reverse⟩

/-- The fixed candidate list probed by
`CyberSecGuruScraper._try_sitemaps`. -/
def sitemap_paths : List String :=
  ["/sitemap.xml", "/sitemap_index.xml", "/post-sitemap.xml", "/page-sitemap.xml"]

/-- What one iteration of the `_try_sitemaps` loop appends for one
candidate sitemap URL (`src/cybersecguru_scraper.py` lines 43-76): on a
200 response whose body parses, either resolve a sitemap index by
parsing each child `loc` (a child with falsy text makes
`parse_xml_sitemap` fail on fetch and contribute `[]`), or collect the
stripped `loc` texts of a regular sitemap; any exception or non-200
status contributes nothing. -/
def pathYield (env : String → GetOutcome) (sitemap_url : String) : List String :=
  match env sitemap_url with
  | .exn => []
  | .resp status body =>
    if status = 200 then
      match body with
      | none => []
      | some root =>
        let smLocs := sitemapChildLocTexts root
        if smLocs.isEmpty then
          locStrippedTexts root
        else
          smLocs.flatMap (fun t? =>
            match t? with
            | some t => parse_xml_sitemap env t
            | none => [])
    else []

/-- The `for path in sitemap_paths` loop of `_try_sitemaps`: the `urls`
accumulator is empty at the start of every iteration (anything appended
triggers the early `return urls`), so the loop returns the first
non-empty per-path yield, or `[]` when every candidate path yields
nothing. -/
def tryPathsGo (env : String → GetOutcome) (site_url : String) : List String → List String
  | [] => []
  | p :: rest =>
    let y := pathYield env (pyRstripSlash site_url ++ p)
    if y.isEmpty then tryPathsGo env site_url rest else y

/-- `CyberSecGuruScraper._try_sitemaps` (lines 28-79). -/
def try_sitemaps (env : String → GetOutcome) (site_url : String) : List String :=
  tryPathsGo env site_url sitemap_paths

/-- Result of `CyberSecGuruScraper.scrape`: the URL list and whether
`_scrape_homepage` was invoked. -/
structure ScrapeResult where
  urls : List String
  homepageInvoked : Bool
  deriving Repr, DecidableEq

/-- `CyberSecGuruScraper.scrape` (lines 120-146): sitemaps first; the
homepage is scraped only when `_try_sitemaps` returned no URLs.  The
HTML link extraction of `_scrape_homepage` is abstracted as the
parameter `homepage_urls` (its output does not matter for the claims,
only whether it runs). -/
def scrape (env : String → GetOutcome) (site_url : String)
    (homepage_urls : List String) : ScrapeResult :=
  let urls := try_sitemaps env site_url
  if urls.isEmpty then ⟨homepage_urls, true⟩ else ⟨urls, false⟩

/-! ## BaseScraper._fetch_with_retry (`src/scraper.py` lines 260-290)

Attempt outcomes are an oracle `attempts : Nat → Except E R` giving the
result of the `session.get`/`raise_for_status` pair on each attempt
number.  The function returns the method's result — success, or the
last stored exception re-raised (`none` when no attempt ran, matching
the `raise None` a zero-retry configuration would execute) — together
with the number of `time.sleep(retry_delay)` calls performed. -/

def fetchGo {E R : Type} (attempts : Nat → Except E R) (max_retries : Nat) :
    Nat → Option E → Nat → Except (Option E) R × Nat
  | attempt, last, sleeps =>
    if attempt > max_retries then (.error last, sleeps)
    else
      match attempts attempt with
      | .ok r => (.ok r, sleeps)
      | .error e =>
        fetchGo attempts max_retries (attempt + 1) (some e)
          (if attempt < max_retries then sleeps + 1 else sleeps)
  termination_by attempt _ _ => max_retries + 1 - attempt
  decreasing_by omega

/-- `_fetch_with_retry`: run attempts `1, ..., max_retries`, sleeping
`retry_delay` after each failed attempt except the last. -/
def fetch_with_retry {E R : Type} (attempts : Nat → Except E R) (max_retries : Nat) :
    Except (Option E) R × Nat :=
  fetchGo attempts max_retries 1 none 0

/-! ## Python datetime subset for `_is_within_yesterday_to_now`

`BaseScraper._is_within_yesterday_to_now` (`src/scraper.py` lines
219-258) normalizes the `lastmod` text with `str.strip`,
`str.replace("Z", "+00:00")` and two `re.sub` rewrites, then parses it
with `datetime.fromisoformat`.  The embedding models the subset of
`fromisoformat` the rewritten inputs can exercise — `YYYY-MM-DD`,
optionally followed by a `T`/`t`/space separator, a `HH:MM` or
`HH:MM:SS` time, and an optional `+HH:MM`/`-HH:MM` offset ending the
string — returning `none` exactly where `fromisoformat` raises
`ValueError` on such inputs (fractional seconds are outside the
modelled subset).  Aware datetimes compare by instant, embedded as
seconds on a linear timeline via a civil-calendar day count. -/

/-- An aware-or-naive datetime: calendar fields plus an optional
UTC-offset in minutes (`none` = naive `tzinfo`). -/
structure PyDateTime where
  year : Nat
  month : Nat
  day : Nat
  hour : Nat
  minute : Nat
  second : Nat
  tz : Option Int
  deriving Repr, DecidableEq

def isLeap (y : Nat) : Bool :=
  (y % 4 = 0 && y % 100 ≠ 0) || y % 400 = 0

def daysInMonth (y m : Nat) : Nat :=
  if m = 2 then (if isLeap y then 29 else 28)
  else if m = 4 || m = 6 || m = 9 || m = 11 then 30
  else 31

/-- The dates `datetime` accepts: year 1-9999, month 1-12, valid day. -/
def validDate (y m d : Nat) : Bool :=
  1 ≤ y && y ≤ 9999 && 1 ≤ m && m ≤ 12 && 1 ≤ d && d ≤ daysInMonth y m

def digit? (c : Char) : Option Nat :=
  if c.isDigit then some (c.toNat - 48) else none

def parse2 : List Char → Option (Nat × List Char)
  | c1 :: c2 :: rest =>
    match digit? c1, digit? c2 with
    | some a, some b => some (a * 10 + b, rest)
    | _, _ => none
  | _ => none

def parse4 (l : List Char) : Option (Nat × List Char) :=
  match parse2 l with
  | some (a, rest) =>
    match parse2 rest with
    | some (b, rest2) => some (a * 100 + b, rest2)
    | none => none
  | none => none

def expectChar (c : Char) : List Char → Option (List Char)
  | x :: rest => if x = c then some rest else none
  | [] => none

/-- `YYYY-MM-DD` prefix. -/
def parseDateL (l : List Char) : Option (Nat × Nat × Nat × List Char) :=
  match parse4 l with
  | none => none
  | some (y, r1) =>
    match expectChar '-' r1 with
    | none => none
    | some r2 =>
      match parse2 r2 with
      | none => none
      | some (m, r3) =>
        match expectChar '-' r3 with
        | none => none
        | some r4 =>
          match parse2 r4 with
          | none => none
          | some (d, r5) => some (y, m, d, r5)

/-- `HH:MM` or `HH:MM:SS` prefix (seconds default 0). -/
def parseTimeL (l : List Char) : Option (Nat × Nat × Nat × List Char) :=
  match parse2 l with
  | none => none
  | some (hh, r1) =>
    match expectChar ':' r1 with
    | none => none
    | some r2 =>
      match parse2 r2 with
      | none => none
      | some (mm, r3) =>
        match expectChar ':' r3 with
        | none => some (hh, mm, 0, r3)
        | some r4 =>
          match parse2 r4 with
          | none => none
          | some (ss, r5) => some (hh, mm, ss, r5)

/-- A trailing `+HH:MM` / `-HH:MM` offset (must end the string), in
minutes. -/
def parseOffsetL (l : List Char) : Option Int :=
  match l with
  | [] => none
  | s :: rest =>
    if s = '+' || s = '-' then
      match parse2 rest with
      | none => none
      | some (oh, r1) =>
        match expectChar ':' r1 with
        | none => none
        | some r2 =>
          match parse2 r2 with
          | none => none
          | some (om, r3) =>
            if r3.isEmpty && oh ≤ 23 && om ≤ 59 then
              some (if s = '-' then -((oh : Int) * 60 + (om : Int))
                    else (oh : Int) * 60 + (om : Int))
            else none
    else none

/-- `datetime.fromisoformat` on the modelled subset, with the range
validation `datetime` performs. -/
def fromisoformatL (l : List Char) : Option PyDateTime :=
  match parseDateL l with
  | none => none
  | some (y, m, d, rest) =>
    if validDate y m d then
      match rest with
      | [] => some ⟨y, m, d, 0, 0, 0, none⟩
      | sep :: rest2 =>
        if sep = 'T' || sep = 't' || sep = ' ' then
          match parseTimeL rest2 with
          | none => none
          | some (hh, mm, ss, rest3) =>
            if hh ≤ 23 && mm ≤ 59 && ss ≤ 59 then
              match rest3 with
              | [] => some ⟨y, m, d, hh, mm, ss, none⟩
              | _ :: _ =>
                match parseOffsetL rest3 with
                | some off => some ⟨y, m, d, hh, mm, ss, some off⟩
                | none => none
            else none
        else none
    else none

/-- `txt.replace("Z", "+00:00")` (every occurrence). -/
def replaceZL : List Char → List Char
  | [] => []
  | c :: rest =>
    if c = 'Z' then '+' :: '0' :: '0' :: ':' :: '0' :: '0' :: replaceZL rest
    else c :: replaceZL rest

/-- The rewrite `re.sub(r"\s+([+-]\d\x7b2\x7d:\d\x7b2\x7d)$", r"\1", txt)`:
when the text ends with a numeric offset preceded by whitespace, the
(maximal) whitespace run before the offset is removed. -/
def dropWsBeforeOffset (l : List Char) : List Char :=
  match l.reverse with
  | m2 :: m1 :: ':' :: h2 :: h1 :: sgn :: rest =>
    if m2.isDigit && m1.isDigit && h2.isDigit && h1.isDigit
        && (sgn = '+' || sgn = '-')
        && (match rest.head? with | some w => isPyWs w | none => false) then
      (rest.dropWhile isPyWs).reverse ++ [sgn, h1, h2, ':', m1, m2]
    else l
  | _ => l

/-- `re.fullmatch(r"\d\x7b4\x7d-\d\x7b2\x7d-\d\x7b2\x7d", txt)`. -/
def isDateOnlyShape (l : List Char) : Bool :=
  match l with
  | [y1, y2, y3, y4, d1, m1, m2, d2, a1, a2] =>
    y1.isDigit && y2.isDigit && y3.isDigit && y4.isDigit && d1 = '-'
      && m1.isDigit && m2.isDigit && d2 = '-' && a1.isDigit && a2.isDigit
  | _ => false

/-- The rewrite
`re.sub(r"(\d\x7b2\x7d:\d\x7b2\x7d)([+-]\d\x7b2\x7d:\d\x7b2\x7d)$", r"\1:00\2", txt)`:
when the text ends with digit-pair `:` digit-pair followed by a numeric
offset, insert `:00` between them.  The match is anchored at the end
and has fixed width, so the leftmost match of `re.sub` is exactly the
trailing 11 characters.  Note this fires even when seconds are already
present: `...23:59:00+00:00` becomes `...23:59:00:00+00:00`. -/
def insertSecondsBeforeOffset (l : List Char) : List Char :=
  match l.reverse with
  | g2 :: g1 :: ':' :: f2 :: f1 :: sgn :: d2 :: d1 :: ':' :: t2 :: t1 :: rest =>
    if g2.isDigit && g1.isDigit && f2.isDigit && f1.isDigit
        && (sgn = '+' || sgn = '-') && d2.isDigit && d1.isDigit
        && t2.isDigit && t1.isDigit then
      rest.reverse ++ [t1, t2, ':', d1, d2, ':', '0', '0', sgn, f1, f2, ':', g1, g2]
    else l
  | _ => l

/-- The try-block of `_is_within_yesterday_to_now` up to the aware
`lastmod` value: strip, replace `Z`, drop whitespace before the offset;
a date-only text parses as midnight and is stamped UTC; otherwise the
seconds-insertion rewrite runs, the text is parsed, and a naive result
is stamped UTC.  `none` is any raised exception (caught by the method's
`except`). -/
def lastmodDatetime (lastmod_text : String) : Option PyDateTime :=
  let txt := dropWsBeforeOffset (replaceZL (stripL lastmod_text.data))
  if isDateOnlyShape txt then
    match fromisoformatL txt with
    | some dt => some { dt with tz := some 0 }
    | none => none
  else
    match fromisoformatL (insertSecondsBeforeOffset txt) with
    | some dt => if dt.tz = none then some { dt with tz := some 0 } else some dt
    | none => none

/-- Days of a civil date on a linear day count (era-based civil
calendar algorithm; valid and strictly monotone for the dates
`validDate` admits). -/
def daysFromCivil (y m d : Nat) : Nat :=
  let y' := if m ≤ 2 then y - 1 else y
  let era := y' / 400
  let yoe := y' % 400
  let mp := if m > 2 then m - 3 else m + 9
  let doy := (153 * mp + 2) / 5 + (d - 1)
  let doe := yoe * 365 + yoe / 4 - yoe / 100 + doy
  era * 146097 + doe

/-- The instant of an aware datetime in seconds on the linear timeline
(a naive value is treated as UTC, as the method does before
comparing). -/
def toInstant (dt : PyDateTime) : Int :=
  (daysFromCivil dt.year dt.month dt.day : Int) * 86400
    + (dt.hour : Int) * 3600 + (dt.minute : Int) * 60 + (dt.second : Int)
    - (dt.tz.getD 0) * 60

/-- The value of `datetime.now(timezone.utc)`, UTC calendar fields. -/
structure UtcNow where
  year : Nat
  month : Nat
  day : Nat
  hour : Nat
  minute : Nat
  second : Nat
  deriving Repr, DecidableEq

def nowInstant (n : UtcNow) : Int :=
  (daysFromCivil n.year n.month n.day : Int) * 86400
    + (n.hour : Int) * 3600 + (n.minute : Int) * 60 + (n.second : Int)

/-- `(now - timedelta(days=1)).replace(hour=0, minute=0, second=0,
microsecond=0)`: going back 86400 seconds lands on the previous civil
day (UTC has no transitions), and zeroing the time fields gives that
day's midnight. -/
def yesterdayStartInstant (n : UtcNow) : Int :=
  ((daysFromCivil n.year n.month n.day : Int) - 1) * 86400

/-- `BaseScraper._is_within_yesterday_to_now`, with `now` passed
explicitly: parse `lastmod`, and test membership in the closed interval
`[yesterday 00:00 UTC, now]`; every parse failure yields `False`. -/
def is_within_yesterday_to_now (n : UtcNow) (lastmod_text : String) : Bool :=
  match lastmodDatetime lastmod_text with
  | none => false
  | some lm =>
    decide (yesterdayStartInstant n ≤ toInstant lm ∧ toInstant lm ≤ nowInstant n)

/-! ## Concrete documents and environments used in closed statements -/

/-- A sitemap-index document whose children are `<sitemap><loc>t</loc>
</sitemap>` for each t in `ts` (no `<url>` entries). -/
def indexDoc (ts : List String) : Xml :=
  .elem "sitemapindex" none
    (ts.map (fun t => .elem "sitemap" none [.elem "loc" (some t) []]))

/-- Concrete index document with a single child sitemap. -/
def c5IndexDoc : Xml :=
  indexDoc ["https://x/post-sitemap.xml"]

/-- Concrete urlset document with one content URL. -/
def c5ChildDoc : Xml :=
  .elem "urlset" none [.elem "url" none [.elem "loc" (some "https://x/a1") []]]

/-- Environment serving the index at the top-level sitemap URL and the
child urlset at the child's URL. -/
def c5Env : String → GetOutcome := fun u =>
  if u = "https://x/sitemap.xml" then .resp 200 (some c5IndexDoc)
  else if u = "https://x/post-sitemap.xml" then .resp 200 (some c5ChildDoc)
  else .exn

/-- Concrete urlset document for the homepage-exclusivity witness. -/
def c7Doc : Xml :=
  .elem "urlset" none [.elem "url" none [.elem "loc" (some "https://y/a") []]]

/-- Environment serving a urlset at the first candidate sitemap path. -/
def c7Env : String → GetOutcome := fun u =>
  if u = "https://y/sitemap.xml" then .resp 200 (some c7Doc) else .exn

/-- Attempt oracle failing twice then succeeding on the third attempt. -/
def attSucceedThird : Nat → Except String Nat := fun n =>
  if n = 3 then .ok 7 else .error "boom"

/-- Attempt oracle failing every attempt, error = attempt number. -/
def attAllFail : Nat → Except Nat Nat := fun n => .error n

/-! ## Helper lemmas about `add_urls` -/

theorem contains_eq_decide_mem (l : List String) (u : String) :
    l.contains u = decide (u ∈ l) := by
  by_cases h : u ∈ l <;> simp [h, List.elem_iff, List.contains]

theorem add_urls_returned_eq (stored cands : List String) :
    (add_urls stored cands).returned
      = cands.filter (fun url => !(stored.contains url)) := by
  unfold add_urls
  dsimp only
  split <;> rfl

theorem add_urls_stored_eq (stored cands : List String) :
    (add_urls stored cands).stored
      = stored ++ cands.filter (fun url => !(stored.contains url)) := by
  unfold add_urls
  dsimp only
  split
  · next h =>
      rw [List.isEmpty_iff] at h
      rw [h, List.append_nil]
  · rfl

theorem add_urls_wrote_eq (stored cands : List String) :
    (add_urls stored cands).wrote
      = !(cands.filter (fun url => !(stored.contains url))).isEmpty := by
  unfold add_urls
  dsimp only
  split
  · next h => rw [h]; rfl
  · next h =>
      rw [Bool.not_eq_true] at h
      rw [h]
      rfl

/-- C1: `add_urls` returns exactly the candidates not in the previously
stored set, in their original relative order, comparing the original
un-normalized candidate strings against the stored set; the new URLs
are appended in that order to the stored sequence, a write occurs
exactly when at least one candidate is new, and when no candidate is
new the stored sequence is unchanged. -/
theorem C1_admit_returns_unseen_originals (stored cands : List String) :
    (add_urls stored cands).returned = cands.filter (fun u => decide (u ∉ stored)) ∧
    (add_urls stored cands).stored = stored ++ (add_urls stored cands).returned ∧
    (add_urls stored cands).wrote = !(add_urls stored cands).returned.isEmpty ∧
    ((add_urls stored cands).returned = [] → (add_urls stored cands).stored = stored) := by
  have hfun : (fun url => !(stored.contains url)) = (fun u => decide (u ∉ stored)) := by
    funext u
    rw [contains_eq_decide_mem, decide_not]
  refine ⟨?_, ?_, ?_, ?_⟩
  · rw [add_urls_returned_eq, hfun]
  · rw [add_urls_stored_eq, add_urls_returned_eq]
  · rw [add_urls_wrote_eq, add_urls_returned_eq]
  · intro h
    rw [add_urls_returned_eq] at h
    rw [add_urls_stored_eq, h, List.append_nil]

/-- C2 counterexample: with an empty store and input `["b","a","b","c"]`
(b, a, c pairwise distinct and none previously stored), `add_urls` does
NOT return `["b","a","c"]` — the within-batch duplicate is kept. -/
theorem C2_counterexample :
    ¬ ((add_urls [] ["b", "a", "b", "c"]).returned = ["b", "a", "c"]) := by decide

/-- C2 (amended): for input `[b, a, b, c]` where none of b, a, c are
previously stored, `add_urls` returns `[b, a, b, c]` — within-batch
duplicates are NOT collapsed (the seen-set is computed once, before the
batch) — and the persisted sequence ends with exactly b, a, b, c
appended. -/
theorem C2_amended_no_within_batch_dedup (b a c : String) (stored : List String)
    (hb : b ∉ stored) (ha : a ∉ stored) (hc : c ∉ stored) :
    add_urls stored [b, a, b, c] = ⟨[b, a, b, c], stored ++ [b, a, b, c], true⟩ := by
  have hcb : stored.contains b = false := by
    rw [contains_eq_decide_mem]; exact decide_eq_false hb
  have hca : stored.contains a = false := by
    rw [contains_eq_decide_mem]; exact decide_eq_false ha
  have hcc : stored.contains c = false := by
    rw [contains_eq_decide_mem]; exact decide_eq_false hc
  have hfil : List.filter (fun url => !(stored.contains url)) [b, a, b, c]
      = [b, a, b, c] := by
    simp only [List.filter_cons, hcb, hca, hcc, Bool.not_false, List.filter_nil]
    rfl
  unfold add_urls
  dsimp only
  rw [hfil]
  rfl

/-- C2 witness: the amended statement at concrete inputs. -/
theorem C2_amended_witness :
    add_urls [] ["b", "a", "b", "c"] = ⟨["b", "a", "b", "c"], ["b", "a", "b", "c"], true⟩ :=
  C2_amended_no_within_batch_dedup "b" "a" "c" []
    (by decide) (by decide) (by decide)

/-- C3: admitting the same candidate list twice in a row makes the
second call return the empty list and perform no write. -/
theorem C3_admit_idempotent (stored L : List String) :
    (add_urls (add_urls stored L).stored L).returned = [] ∧
    (add_urls (add_urls stored L).stored L).wrote = false := by
  have hmem : ∀ u ∈ L, u ∈ (add_urls stored L).stored := by
    intro u hu
    rw [add_urls_stored_eq, List.mem_append]
    by_cases hs : u ∈ stored
    · exact Or.inl hs
    · refine Or.inr (List.mem_filter.mpr ⟨hu, ?_⟩)
      rw [contains_eq_decide_mem, decide_eq_false hs]
      rfl
  have hfilter :
      L.filter (fun url => !((add_urls stored L).stored.contains url)) = [] := by
    rw [List.filter_eq_nil_iff]
    intro u hu
    rw [contains_eq_decide_mem, decide_eq_true (hmem u hu)]
    simp
  constructor
  · rw [add_urls_returned_eq, hfilter]
  · rw [add_urls_wrote_eq, hfilter]
    rfl

/-- C8: evaluation at the failing input: with an empty store,
admitting `["https://example.com/"]` persists the ORIGINAL string, with
its trailing slash intact, while the cleanup routine's (discarded)
output has the slash stripped — so the claimed stored-URL invariant
fails on the code. -/
theorem C8_trailing_slash_persisted :
    (add_urls [] ["https://example.com/"]).stored = ["https://example.com/"] ∧
    ("https://example.com/").data.getLast? = some '/' ∧
    cleanedUrls ["https://example.com/"] = ["https://example.com"] := by decide

/-- C10: `_load` absorbs only a missing file and a JSON decode failure
(reinitializing an empty store); a successful parse returns the parsed
data unchanged; any other read error is re-raised to the caller. -/
theorem C10_load_error_policy {ε : Type} (now : String) (e : ε) (d : StoreData) :
    load now (.otherError e) = (.error e : Except ε StoreData) ∧
    load now (ReadOutcome.jsonDecodeError : ReadOutcome ε) = .ok (freshStore now) ∧
    load now (ReadOutcome.missing : ReadOutcome ε) = .ok (freshStore now) ∧
    (freshStore now).urls = [] ∧
    load now (.parsed d) = (.ok d : Except ε StoreData) :=
  ⟨rfl, rfl, rfl, rfl, rfl⟩

/-! ## Sitemap parsing and discovery (C5, C7) -/

theorem locTexts_indexDoc (ts : List String) :
    locTexts (indexDoc ts) = ts.map some := by
  induction ts with
  | nil => rfl
  | cons t ts ih =>
    have h : locTexts (indexDoc (t :: ts)) = some t :: locTexts (indexDoc ts) := rfl
    rw [h, ih, List.map_cons]

theorem sitemapChildLocTexts_indexDoc (ts : List String) :
    sitemapChildLocTexts (indexDoc ts) = ts.map some := by
  induction ts with
  | nil => rfl
  | cons t ts ih =>
    have h : sitemapChildLocTexts (indexDoc (t :: ts))
        = some t :: sitemapChildLocTexts (indexDoc ts) := rfl
    rw [h, ih, List.map_cons]

/-- C5 counterexample: a sitemap document containing only a
`<sitemap><loc>` child and no `<url>` entries on which the
non-recursive parser `parse_xml_sitemap` does NOT return the empty
list claimed (it returns the child sitemap's own `loc` value). -/
theorem C5_counterexample :
    ¬ (parse_xml_sitemap c5Env "https://x/sitemap.xml" = []) := by decide

/-- C5 (amended): on a sitemap document containing only
`<sitemap><loc>` children and no `<url>` entries, the non-recursive
parser returns the child sitemaps' own `loc` values (stripped,
first-occurrence-deduplicated) — one level, without recursing — while
the index-aware strategy of `_try_sitemaps` fetches each child sitemap
and unions (concatenates) their recursively parsed `loc` entries. -/
theorem C5_index_handling (env : String → GetOutcome) (u : String) (ts : List String)
    (henv : env u = .resp 200 (some (indexDoc ts))) (hts : ts ≠ []) :
    parse_xml_sitemap env u
      = dedupFirst (ts.filterMap (fun t => if t = "" then none else some (pyStrip t))) ∧
    pathYield env u = ts.flatMap (fun t => parse_xml_sitemap env t) := by
  have hlocs : locStrippedTexts (indexDoc ts)
      = ts.filterMap (fun t => if t = "" then none else some (pyStrip t)) := by
    rw [locStrippedTexts, locTexts_indexDoc, List.filterMap_map]
    rfl
  constructor
  · rw [parse_xml_sitemap, henv]
    dsimp only
    rw [if_pos (by omega), hlocs]
  · rw [pathYield, henv]
    dsimp only
    rw [if_pos rfl]
    rw [sitemapChildLocTexts_indexDoc]
    have hne : (ts.map some).isEmpty = false := by
      cases ts with
      | nil => exact absurd rfl hts
      | cons t ts => rfl
    rw [hne, if_neg (by simp), List.flatMap_map]

/-- C5 witness: the amended statement at the concrete index document
and environment. -/
theorem C5_index_handling_witness :
    parse_xml_sitemap c5Env "https://x/sitemap.xml"
      = dedupFirst ((["https://x/post-sitemap.xml"]).filterMap
          (fun t => if t = "" then none else some (pyStrip t))) ∧
    pathYield c5Env "https://x/sitemap.xml"
      = (["https://x/post-sitemap.xml"]).flatMap
          (fun t => parse_xml_sitemap c5Env t) :=
  C5_index_handling c5Env "https://x/sitemap.xml" ["https://x/post-sitemap.xml"]
    rfl (by decide)

theorem tryPathsGo_ne_nil (env : String → GetOutcome) (site_url : String) :
    ∀ ps : List String,
      (∃ p ∈ ps, pathYield env (pyRstripSlash site_url ++ p) ≠ []) →
      tryPathsGo env site_url ps ≠ [] := by
  intro ps
  induction ps with
  | nil =>
    rintro ⟨p, hp, _⟩
    cases hp
  | cons q rest ih =>
    rintro ⟨p, hp, hne⟩
    simp only [tryPathsGo]
    by_cases hq : (pathYield env (pyRstripSlash site_url ++ q)).isEmpty
    · rw [if_pos hq]
      rcases List.mem_cons.mp hp with heq | hmem
      · subst heq
        rw [List.isEmpty_iff] at hq
        exact absurd hq hne
      · exact ih ⟨p, hmem, hne⟩
    · rw [if_neg hq]
      rw [List.isEmpty_iff] at hq
      exact hq

/-- C7: if any candidate sitemap path yields at least one URL, the
homepage fallback `_scrape_homepage` is never invoked by `scrape` in
that run. -/
theorem C7_sitemap_excludes_homepage (env : String → GetOutcome) (site_url : String)
    (homepage_urls : List String)
    (h : ∃ p ∈ sitemap_paths, pathYield env (pyRstripSlash site_url ++ p) ≠ []) :
    (scrape env site_url homepage_urls).homepageInvoked = false := by
  have hne : try_sitemaps env site_url ≠ [] :=
    tryPathsGo_ne_nil env site_url sitemap_paths h
  unfold scrape
  dsimp only
  rw [if_neg (fun hc => hne (List.isEmpty_iff.mp hc))]

/-- C7 witness: a concrete environment whose first candidate sitemap
path yields one URL; homepage scraping is not invoked. -/
theorem C7_witness :
    (scrape c7Env "https://y" ["https://y/home"]).homepageInvoked = false :=
  C7_sitemap_excludes_homepage c7Env "https://y" ["https://y/home"]
    ⟨"/sitemap.xml", by decide, by decide⟩

/-! ## Fetch retry (C6) -/

theorem fetchGo_all_fail {E R : Type} (attempts : Nat → Except E R) (errf : Nat → E)
    (max_retries : Nat) (k : Nat) :
    ∀ attempt (last : Option E) sleeps, attempt ≤ max_retries → max_retries - attempt = k →
      (∀ i, attempt ≤ i → i ≤ max_retries → attempts i = .error (errf i)) →
      fetchGo attempts max_retries attempt last sleeps
        = (.error (some (errf max_retries)), sleeps + (max_retries - attempt)) := by
  induction k with
  | zero =>
    intro attempt last sleeps hle hk hall
    have heq : attempt = max_retries := by omega
    subst heq
    rw [fetchGo, if_neg (by omega), hall attempt le_rfl le_rfl]
    dsimp only
    rw [if_neg (by omega)]
    rw [fetchGo, if_pos (by omega)]
    simp
  | succ k ih =>
    intro attempt last sleeps hle hk hall
    rw [fetchGo, if_neg (by omega), hall attempt le_rfl hle]
    dsimp only
    rw [if_pos (by omega)]
    rw [ih (attempt + 1) (some (errf attempt)) (sleeps + 1) (by omega) (by omega)
      (fun i h1 h2 => hall i (by omega) h2)]
    have : sleeps + 1 + (max_retries - (attempt + 1)) = sleeps + (max_retries - attempt) := by
      omega
    rw [this]

/-- C6: with `max_retries = 3`, two failures then a success return the
successful response having slept exactly twice; and for every
configuration with at least one attempt where all attempts fail, the
error of the last attempt is propagated to the caller. -/
theorem C6_fetch_retry (E R : Type) :
    (∀ (attempts : Nat → Except E R) (e1 e2 : E) (r : R),
      attempts 1 = .error e1 → attempts 2 = .error e2 → attempts 3 = .ok r →
      fetch_with_retry attempts 3 = (.ok r, 2)) ∧
    (∀ (attempts : Nat → Except E R) (errf : Nat → E) (max_retries : Nat),
      1 ≤ max_retries →
      (∀ i, 1 ≤ i → i ≤ max_retries → attempts i = .error (errf i)) →
      (fetch_with_retry attempts max_retries).1
        = .error (some (errf max_retries))) := by
  constructor
  · intro attempts e1 e2 r h1 h2 h3
    rw [fetch_with_retry]
    rw [fetchGo, if_neg (by omega), h1]
    dsimp only
    rw [if_pos (by omega)]
    rw [fetchGo, if_neg (by omega), h2]
    dsimp only
    rw [if_pos (by omega)]
    rw [fetchGo, if_neg (by omega), h3]
  · intro attempts errf max_retries hmax hall
    rw [fetch_with_retry]
    rw [fetchGo_all_fail attempts errf max_retries (max_retries - 1) 1 none 0 hmax rfl
      (fun i h1 h2 => hall i h1 h2)]

/-- C6 witness: concrete attempt oracles for both conjuncts. -/
theorem C6_witness :
    fetch_with_retry attSucceedThird 3 = (.ok 7, 2) ∧
    (fetch_with_retry attAllFail 2).1 = .error (some 2) := by
  constructor
  · exact (C6_fetch_retry String Nat).1 attSucceedThird "boom" "boom" 7 rfl rfl rfl
  · exact (C6_fetch_retry Nat Nat).2 attAllFail (fun i => i) 2 (by omega)
      (fun i h1 h2 => rfl)

/-! ## Recency window (C4, C9) -/

/-- C4 counterexample: evaluated with now = 2026-01-15T12:00:00Z, the
lastmod values 2026-01-15T00:00:00Z and 2026-01-15T12:00:00Z are NOT
accepted — contradicting the claim that the second and third values
are within the window. -/
theorem C4_counterexample :
    is_within_yesterday_to_now ⟨2026, 1, 15, 12, 0, 0⟩ "2026-01-15T00:00:00Z" = false ∧
    is_within_yesterday_to_now ⟨2026, 1, 15, 12, 0, 0⟩ "2026-01-15T12:00:00Z" = false := by
  decide

/-- C4 (amended): with now = 2026-01-15T12:00:00Z all three lastmod
values are rejected: the seconds-insertion rewrite also fires on
timestamps that already carry seconds, corrupting each value (for
example `2026-01-15T00:00:00+00:00` becomes
`2026-01-15T00:00:00:00+00:00`), so parsing fails and the check
returns False before any window comparison. -/
theorem C4_recency_all_rejected :
    lastmodDatetime "2026-01-14T23:59:00Z" = none ∧
    lastmodDatetime "2026-01-15T00:00:00Z" = none ∧
    lastmodDatetime "2026-01-15T12:00:00Z" = none ∧
    is_within_yesterday_to_now ⟨2026, 1, 15, 12, 0, 0⟩ "2026-01-14T23:59:00Z" = false ∧
    is_within_yesterday_to_now ⟨2026, 1, 15, 12, 0, 0⟩ "2026-01-15T00:00:00Z" = false ∧
    is_within_yesterday_to_now ⟨2026, 1, 15, 12, 0, 0⟩ "2026-01-15T12:00:00Z" = false := by
  decide

/-- C9: for every lastmod string the normalization-and-parse pipeline
fails on (malformed), the recency check returns False; the embedded
function is total, mirroring the catch-all `except` that turns every
raised exception into a False return rather than a propagated error. -/
theorem C9_malformed_lastmod_false (n : UtcNow) (s : String)
    (h : lastmodDatetime s = none) :
    is_within_yesterday_to_now n s = false := by
  unfold is_within_yesterday_to_now
  rw [h]

/-- C9 witness: the concrete malformed value of the spec. -/
theorem C9_witness :
    lastmodDatetime "not-a-date" = none ∧
    is_within_yesterday_to_now ⟨2026, 1, 15, 12, 0, 0⟩ "not-a-date" = false :=
  ⟨by decide,
   C9_malformed_lastmod_false ⟨2026, 1, 15, 12, 0, 0⟩ "not-a-date" (by decide)⟩

end Scraping
